import Mathlib

/-!
Shallow embedding of the medication-dispenser backend
(`medibuddy_backend`): the compartment inventory paths, the dispensing
log state machine, schedule expansion, and the alert escalation engine,
translated from the JavaScript controllers and services.  Database
reads that feed an operation (the fetched documents) become function
arguments; database writes become the returned updated values.
JavaScript numbers holding pill counts are modelled as `Int` because no
schema constraint bounds them (`dispenserDeviceModel.js` declares
`currentQuantity` with no `min`/`max`).
-/

namespace Medibuddy

/-- Status values of a `DispensingLog` record as used by the controllers
(`dispenserLogModel.js` enum plus the `cancelled` value written by
`scheduleController.js` through `updateMany`, and the `COMPLETED`/`FAILED`
values written by `services/dispenser/dispensingService.js`). -/
inductive LogStatus where
  | scheduled
  | dispensed
  | taken
  | missed
  | skipped
  | cancelled
  | completed
  | failed
  deriving DecidableEq, Repr

/-- One compartment of a dispenser device (`dispenserDeviceModel.js`,
`compartments` subdocument).  `lastFilled` is a timestamp in minutes. -/
structure Compartment where
  compartmentId : Nat
  medicationId : Option Nat
  currentQuantity : Int
  capacity : Int
  lastFilled : Option Nat
  deriving DecidableEq, Repr

/-- A dispenser slot as used by `services/inventory/inventoryService.js`
(the `dispenserSlots` table of the alternate implementation). -/
structure Slot where
  slotNumber : Nat
  medicationId : Option Nat
  pillCount : Int
  lastDispensed : Option Nat
  deriving DecidableEq, Repr

/-- The quantity subdocument of a dispensing log
(`dispenserLogModel.js`): `tablets` with default 1, and the optional
`actualTabletDispensed` verification count. -/
structure LogQuantity where
  tablets : Int
  actualTabletDispensed : Option Int
  deriving DecidableEq, Repr

/-- JavaScript `a || b` on a nullable number: `undefined`, `null` and `0`
are falsy. -/
def jsOrInt (x : Option Int) (y : Int) : Int :=
  match x with
  | some n => if n ≠ 0 then n else y
  | none => y

/-- `dispensingLog.quantity.actualTabletDispensed || dispensingLog.quantity.tablets || 1`
from `updateDispensingLogStatus` (src/unnamed/part_008, lines 442-443). -/
def tabletsDispensedOf (q : LogQuantity) : Int :=
  jsOrInt q.actualTabletDispensed (jsOrInt (some q.tablets) 1)

/-- The compartment-quantity mutation of `updateDispensingLogStatus`
(src/unnamed/part_008, lines 441-449): when the new status is
`dispensed`, the compartment's quantity is set to
`Math.max(0, currentQuantity - tabletsDispensed)`. -/
def dispenseDecrement (c : Compartment) (tabletsDispensed : Int) : Compartment :=
  { c with currentQuantity := max 0 (c.currentQuantity - tabletsDispensed) }

/-- The quantity-update branch of `updateDispenserCompartment`
(src/unnamed/part_008, lines 221-228): when the request body carries
`currentQuantity`, it is assigned directly, with no bounds check; the
subsequent `lastFilled` refresh compares the request value against the
field that was just overwritten with it, so it never fires. -/
def updateDispenserCompartmentQty (c : Compartment) (reqQty : Int) (now : Nat) :
    Compartment :=
  let c1 := { c with currentQuantity := reqQty }
  if reqQty > c1.currentQuantity then { c1 with lastFilled := some now } else c1

/-- `InventoryService.updatePillCount`
(`services/inventory/inventoryService.js`, lines 152-236), restricted to
the slot it mutates: a negative requested count is rejected with a
failure message; otherwise the slot's `pillCount` is overwritten with
the requested value (no capacity check exists on this path). -/
def updatePillCount (slot : Slot) (newCount : Int) : Except String Slot :=
  if newCount < 0 then
    .error "Pill count cannot be negative"
  else
    .ok { slot with pillCount := newCount }

/-- `handleInventoryUpdate` (`services/inventory/inventoryService.js`,
lines 11-87), restricted to the slot it mutates: the device-reported
`pillCount` overwrites the stored count with no validation at all. -/
def handleInventoryUpdate (slot : Slot) (pillCount : Int) : Slot :=
  { slot with pillCount := pillCount }

/-- Notification kinds emitted by the dispensing/inventory services
(`notificationService.createNotification` type argument). -/
inductive NotificationKind where
  | lowInventory
  | dispensingError
  deriving DecidableEq, Repr

/-- A dispensing record of the alternate (`dispensingLog` table)
implementation in `services/dispenser/dispensingService.js`. -/
structure DispensingRecord where
  id : Nat
  status : LogStatus
  errorMessage : Option String
  deriving DecidableEq, Repr

/-- Result of `handleDispensedConfirmation`: the updated record, the
updated slot, and the notifications created. -/
structure ConfirmResult where
  record : DispensingRecord
  slot : Slot
  notifications : List NotificationKind
  deriving DecidableEq, Repr

/-- `handleDispensedConfirmation`
(`services/dispenser/dispensingService.js`, lines 316-446), restricted
to the record and slot it mutates.  The record's status is set to
`COMPLETED` or `FAILED` from the `success` flag with no check of the
record's current status.  On success the slot's pill count becomes
`Math.max(0, pillCount - 1)` and, when the pre-decrement count was at
most 1, a low-inventory notification is created; on failure the slot is
untouched and a dispensing-error notification is created. -/
def handleDispensedConfirmation (rec : DispensingRecord) (slot : Slot)
    (success : Bool) (errorMessage : Option String) (now : Nat) : ConfirmResult :=
  let rec1 : DispensingRecord :=
    { rec with
      status := if success then .completed else .failed
      errorMessage := if success then none else some (errorMessage.getD "Unknown error") }
  if success then
    let slot1 : Slot :=
      { slot with
        pillCount := max 0 (slot.pillCount - 1)
        lastDispensed := some now }
    { record := rec1
      slot := slot1
      notifications := if slot.pillCount ≤ 1 then [.lowInventory] else [] }
  else
    { record := rec1, slot := slot, notifications := [.dispensingError] }

/-! ## Schedules and schedule expansion (`controllers/scheduleController.js`)

Time is modelled in minutes.  A calendar day is 1440 minutes; the
weekday of day `d` is `d % 7` (the epoch is chosen to start on a
Sunday).  JavaScript's `setHours(h, m, 0, 0)` on the midnight of day
`d` yields the instant `d * 1440 + (h * 60 + m)`, also when `h ≥ 24`
(JS rolls the overflow into the following day), so a parsed
`"HH:MM"` string is carried as its total minute count. -/

/-- A medication schedule (`scheduleModel.js` fields used by the
controller).  `scheduleTimes` holds each configured time of day in
minutes; `startDate`/`endDate` are instants in minutes.  The
`statusHistory` audit trail is omitted: no control flow reads it. -/
structure Schedule where
  id : Nat
  patient : Nat
  medication : Nat
  dispenser : Option Nat
  compartmentId : Option Nat
  scheduleTimes : List Nat
  daysOfWeek : List Nat
  startDate : Nat
  endDate : Option Nat
  dosage : Int
  active : Bool
  deriving DecidableEq, Repr

/-- A dispensing log document (`dispenserLogModel.js`): created by
`generateDispensingLogs`, filtered by the schedule controller's bulk
operations, and mutated by `updateDispensingLogStatus`.  `schedule` is
optional because the `createDispensingLog` endpoint inserts rows
without it. -/
structure DLog where
  schedule : Option Nat
  device : Option Nat
  patient : Nat
  medication : Nat
  compartmentId : Option Nat
  scheduledTime : Nat
  quantity : LogQuantity
  status : LogStatus
  takenTime : Option Nat
  dispensedTime : Option Nat
  verificationSuccessful : Option Bool
  notes : Option String
  deriving DecidableEq, Repr

/-- The log row pushed for instant `scheduledTime` by
`generateDispensingLogs` (scheduleController.js, lines 450-459). -/
def mkScheduledLog (s : Schedule) (scheduledTime : Nat) : DLog :=
  { schedule := some s.id
    device := s.dispenser
    patient := s.patient
    medication := s.medication
    compartmentId := s.compartmentId
    scheduledTime := scheduledTime
    quantity := { tablets := s.dosage, actualTabletDispensed := none }
    status := .scheduled
    takenTime := none
    dispensedTime := none
    verificationSuccessful := none
    notes := none }

/-- The horizon end of `generateDispensingLogs`:
`schedule.endDate || new Date(now + 30 days)`. -/
def horizonEnd (s : Schedule) (now : Nat) : Nat :=
  s.endDate.getD (now + 30 * 1440)

/-- The day numbers visited by the `generateDispensingLogs` loop: the
loop starts at the midnight of today (`currentDate.setHours(0,0,0,0)`)
and advances one day at a time while that midnight is `≤` the horizon
end, so it visits exactly the days `now / 1440 .. horizonEnd / 1440`. -/
def expansionDays (s : Schedule) (now : Nat) : List Nat :=
  List.range' (now / 1440) (horizonEnd s now / 1440 + 1 - now / 1440)

/-- The logs emitted on day `d`: nothing when the weekday is not in the
schedule's day set, otherwise one `scheduled` log per configured time
whose combined instant is strictly after `now`. -/
def dayLogs (s : Schedule) (now d : Nat) : List DLog :=
  if d % 7 ∈ s.daysOfWeek then
    s.scheduleTimes.filterMap fun t =>
      if d * 1440 + t > now then some (mkScheduledLog s (d * 1440 + t)) else none
  else []

/-- `generateDispensingLogs` (scheduleController.js, lines 421-472):
nothing is generated for an inactive schedule or one without a
dispenser; otherwise the loop walks the expansion days and emits each
day's logs in order.  The schedule's `startDate` is never consulted. -/
def generateDispensingLogs (s : Schedule) (now : Nat) : List DLog :=
  if ¬s.active ∨ s.dispenser = none then []
  else (expansionDays s now).flatMap (dayLogs s now)

/-- The filter `{schedule: id, scheduledTime: {$gte: now}, status: 'scheduled'}`
used by the `deleteMany`/`updateMany` calls of the schedule controller. -/
def matchesFutureScheduled (scheduleId : Nat) (now : Nat) (log : DLog) : Bool :=
  decide (log.schedule = some scheduleId) && decide (now ≤ log.scheduledTime) &&
    decide (log.status = .scheduled)

/-- The `DispensingLog.deleteMany` effect of `deleteSchedule`
(scheduleController.js, lines 251-256) and of the timing-change branch
of `updateSchedule` (lines 218-223). -/
def deleteFutureScheduled (scheduleId : Nat) (logs : List DLog) (now : Nat) :
    List DLog :=
  logs.filter fun log => !(matchesFutureScheduled scheduleId now log)

/-- The `DispensingLog.updateMany` effect of `updateScheduleStatus`
(scheduleController.js, lines 301-312): every matching row's status
becomes `cancelled` and its notes are set. -/
def cancelFutureScheduled (scheduleId : Nat) (logs : List DLog) (now : Nat)
    (reason : Option String) : List DLog :=
  logs.map fun log =>
    if matchesFutureScheduled scheduleId now log then
      { log with status := .cancelled, notes := some (reason.getD "Schedule paused") }
    else log

/-- The log-store effect of `deleteSchedule` (scheduleController.js,
lines 235-262): future `scheduled` rows of the schedule are deleted
(the compartment unassignment and the schedule removal itself touch
other stores). -/
def deleteSchedule (s : Schedule) (logs : List DLog) (now : Nat) : List DLog :=
  deleteFutureScheduled s.id logs now

/-- The regeneration tail of `updateSchedule` (scheduleController.js,
lines 197-227): when a timing field was present in the request and the
saved schedule is active, future `scheduled` rows are deleted and the
expansion runs again; otherwise the log store is untouched. -/
def updateScheduleRegenerate (s : Schedule) (timingChanged : Bool)
    (logs : List DLog) (now : Nat) : List DLog :=
  if timingChanged ∧ s.active then
    deleteFutureScheduled s.id logs now ++ generateDispensingLogs s now
  else logs

/-- `updateScheduleStatus` (scheduleController.js, lines 267-315):
`schedule.active` is assigned the requested flag first; the two guards
that follow (`active && !schedule.active` to regenerate,
`!active && schedule.active` to cancel) then read the already-mutated
field, exactly as the source does. -/
def updateScheduleStatus (s : Schedule) (logs : List DLog) (active : Bool)
    (reason : Option String) (now : Nat) : Schedule × List DLog :=
  let schedule := { s with active := active }
  let logs1 :=
    if active ∧ ¬schedule.active then logs ++ generateDispensingLogs schedule now
    else logs
  let logs2 :=
    if ¬active ∧ schedule.active then cancelFutureScheduled schedule.id logs1 now reason
    else logs1
  (schedule, logs2)

/-! ## Dispensing log status updates (src/unnamed/part_008) -/

/-- JavaScript truthiness of a nullable number: `undefined`, `null` and
`0` are falsy.  Used for the `dispensingLog.compartmentId` guard. -/
def jsTruthyNat (x : Option Nat) : Bool :=
  match x with
  | some n => n ≠ 0
  | none => false

/-- The request body of the `updateDispensingLogStatus` endpoint
(src/unnamed/part_008, lines 381-388). -/
structure LogUpdateRequest where
  status : Option LogStatus
  takenTime : Option Nat
  dispensedTime : Option Nat
  notes : Option String
  verificationSuccessful : Option Bool
  actualTabletDispensed : Option Int
  deriving DecidableEq, Repr

/-- `updateDispensingLogStatus` (src/unnamed/part_008, lines 380-454),
restricted to the log it saves and the compartment it may mutate.
`comp` is the compartment found on the log's dispenser (`none` when the
dispenser or the compartment is missing).  The status is overwritten by
`status || dispensingLog.status` with no transition check; afterwards,
when the requested status is `dispensed` and the log carries a truthy
device and compartment id, the found compartment's quantity is set to
`Math.max(0, currentQuantity - tabletsDispensed)` where
`tabletsDispensed` is read from the just-saved log's quantity. -/
def updateDispensingLogStatus (log : DLog) (req : LogUpdateRequest)
    (comp : Option Compartment) : DLog × Option Compartment :=
  let log1 : DLog :=
    { log with
      status := req.status.getD log.status
      takenTime := match req.takenTime with | some t => some t | none => log.takenTime
      dispensedTime := match req.dispensedTime with | some t => some t | none => log.dispensedTime
      notes := match req.notes with | some n => some n | none => log.notes
      verificationSuccessful :=
        match req.verificationSuccessful with
        | some v => some v
        | none => log.verificationSuccessful
      quantity :=
        match req.actualTabletDispensed with
        | some n => { log.quantity with actualTabletDispensed := some n }
        | none => log.quantity }
  let comp1 :=
    if req.status = some .dispensed ∧ log.device ≠ none ∧ jsTruthyNat log.compartmentId then
      match comp with
      | some c => some (dispenseDecrement c (tabletsDispensedOf log1.quantity))
      | none => comp
    else comp
  (log1, comp1)

/-! ## Alerts and escalation (src/unnamed/part_009, `alertController.js`) -/

/-- Alert status values used across `alertModel.js` and the
controllers. -/
inductive AlertStatus where
  | active
  | acknowledged
  | resolved
  | dismissed
  | test
  deriving DecidableEq, Repr

/-- Alert severities (`alertModel.js`). -/
inductive Severity where
  | low
  | medium
  | high
  deriving DecidableEq, Repr

/-- Alert types named in the controllers. -/
inductive AlertType where
  | missedDose
  | lowMedication
  | deviceError
  | deviceOffline
  | batteryLow
  | unauthorizedAccess
  | medicationError
  | generalAlert
  deriving DecidableEq, Repr

/-- An alert record as manipulated by src/unnamed/part_009:
`escalationHistoryLevels` keeps the levels pushed to
`escalationHistory`, `acknowledgedAt` the acknowledgment timestamp. -/
structure Alert where
  id : Nat
  alertType : AlertType
  severity : Severity
  patient : Nat
  dispenser : Option Nat
  medication : Option Nat
  status : AlertStatus
  escalationLevel : Nat
  escalationHistoryLevels : List Nat
  acknowledgedAt : Option Nat
  deriving DecidableEq, Repr

/-- The request body of the alert-creation endpoint. -/
structure AlertSpec where
  alertType : AlertType
  severity : Option Severity
  patient : Nat
  dispenser : Option Nat
  medication : Option Nat
  deriving DecidableEq, Repr

/-- The record inserted by `Alert.create` in `createAlert`
(src/unnamed/part_009, lines 129-140): status `active`, escalation
level 0, no notifications yet. -/
def newAlertRecord (spec : AlertSpec) (newId : Nat) : Alert :=
  { id := newId
    alertType := spec.alertType
    severity := spec.severity.getD .medium
    patient := spec.patient
    dispenser := spec.dispenser
    medication := spec.medication
    status := .active
    escalationLevel := 0
    escalationHistoryLevels := []
    acknowledgedAt := none }

/-- `createAlert` (src/unnamed/part_009, lines 102-155), on the alert
store: the patient must exist; then a fresh record is unconditionally
inserted — no lookup for an existing active alert with the same
fingerprint is performed. -/
def createAlert (db : List Alert) (users : List Nat) (spec : AlertSpec)
    (newId : Nat) : Except String (List Alert) :=
  if spec.patient ∉ users then .error "Patient not found"
  else .ok (db ++ [newAlertRecord spec newId])

/-- The (patient, type, medication/device) fingerprint match between a
stored alert and a raise request. -/
def sameFingerprint (a : Alert) (spec : AlertSpec) : Bool :=
  a.patient == spec.patient &&
    decide (a.alertType = spec.alertType) &&
    a.medication == spec.medication &&
    a.dispenser == spec.dispenser

/-- Number of alerts in the store that carry the given fingerprint and
are active. -/
def countActiveFingerprint (db : List Alert) (spec : AlertSpec) : Nat :=
  (db.filter fun a => sameFingerprint a spec && decide (a.status = .active)).length

/-- JavaScript `a || b` on a nullable non-negative number: `undefined`,
`null` and `0` are falsy. -/
def jsOrNat (x : Option Nat) (y : Nat) : Nat :=
  match x with
  | some n => if n ≠ 0 then n else y
  | none => y

/-- `escalateAlert` (src/unnamed/part_009, lines 201-238): a non-active
alert is rejected; otherwise the level becomes
`escalationLevel || alert.escalationLevel + 1` — a truthy requested
level is applied verbatim — and the new level is pushed to the
escalation history. -/
def escalateAlert (a : Alert) (reqLevel : Option Nat) : Except String Alert :=
  if a.status ≠ .active then .error "Cannot escalate non-active alert"
  else
    let newLevel := jsOrNat reqLevel (a.escalationLevel + 1)
    .ok { a with
          escalationLevel := newLevel
          escalationHistoryLevels := a.escalationHistoryLevels ++ [newLevel] }

/-- `updateAlertStatus` (src/unnamed/part_009, lines 160-196):
`alert.status = status || alert.status` runs first; the acknowledgment
guard then compares the already-mutated `alert.status` against the
request value, exactly as the source does. -/
def updateAlertStatus (a : Alert) (reqStatus : Option AlertStatus) (now : Nat) :
    Alert :=
  let a1 := { a with status := reqStatus.getD a.status }
  match reqStatus with
  | some s =>
      if (s = .acknowledged ∨ s = .resolved) ∧ a1.status ≠ s then
        { a1 with acknowledgedAt := some now }
      else a1
  | none => a1

/-- Recipient tiers of the escalation engine. -/
inductive RecipientGroup where
  | patient
  | caregivers
  | providers
  | emergency
  | admins
  deriving DecidableEq, Repr

/-- `getRecipientsForEscalationLevel` (src/unnamed/part_009, lines
707-722): the switch over the level, whose `default` branch returns
`['patient', 'caregivers']`. -/
def getRecipientsForEscalationLevel (level : Nat) : List RecipientGroup :=
  match level with
  | 0 => [.patient]
  | 1 => [.patient, .caregivers]
  | 2 => [.patient, .caregivers, .providers]
  | 3 => [.patient, .caregivers, .providers, .emergency]
  | 4 => [.patient, .caregivers, .providers, .emergency, .admins]
  | _ => [.patient, .caregivers]

/-! ## Concrete records used by the counterexamples and witnesses -/

/-- A compartment of capacity 30 holding no tablets. -/
def compEmpty : Compartment :=
  { compartmentId := 1, medicationId := none, currentQuantity := 0, capacity := 30,
    lastFilled := none }

/-- A compartment of capacity 30 holding 10 tablets. -/
def compTen : Compartment :=
  { compartmentId := 1, medicationId := some 1, currentQuantity := 10, capacity := 30,
    lastFilled := none }

/-- A compartment of capacity 30 holding a single tablet. -/
def compOne : Compartment :=
  { compartmentId := 1, medicationId := some 1, currentQuantity := 1, capacity := 30,
    lastFilled := none }

/-- A slot holding five pills. -/
def slotFive : Slot :=
  { slotNumber := 2, medicationId := some 3, pillCount := 5, lastDispensed := none }

/-- A log already in the `dispensed` state, dose of one tablet. -/
def logDispensedCE : DLog :=
  { schedule := some 1, device := some 1, patient := 1, medication := 1,
    compartmentId := some 1, scheduledTime := 100,
    quantity := { tablets := 1, actualTabletDispensed := none },
    status := .dispensed, takenTime := none, dispensedTime := none,
    verificationSuccessful := none, notes := none }

/-- A `scheduled` log whose dose is two tablets. -/
def logTwoTablets : DLog :=
  { logDispensedCE with
    status := .scheduled
    quantity := { tablets := 2, actualTabletDispensed := none } }

/-- The status-update request a device confirmation translates to:
`status: 'dispensed'` and nothing else. -/
def dispenseReq : LogUpdateRequest :=
  { status := some .dispensed, takenTime := none, dispensedTime := none,
    notes := none, verificationSuccessful := none, actualTabletDispensed := none }

/-- A dispensing record of the alternate flow still `scheduled`. -/
def recScheduled : DispensingRecord :=
  { id := 7, status := .scheduled, errorMessage := none }

/-- A dispensing record of the alternate flow already confirmed
(`COMPLETED` is that flow's dispensed state). -/
def recCompleted : DispensingRecord :=
  { id := 7, status := .completed, errorMessage := none }

/-! ## C1 — compartment quantity bounds -/

/-- C1 counterexample: the direct compartment update applies the
requested quantity unchecked, so a single call pushes the quantity
above `capacity`, and another pushes it below `0`. -/
theorem compartment_quantity_escapes_bounds :
    (updateDispenserCompartmentQty compEmpty 31 0).capacity <
      (updateDispenserCompartmentQty compEmpty 31 0).currentQuantity ∧
    (updateDispenserCompartmentQty compEmpty (-5) 0).currentQuantity < 0 := by
  decide

/-- C1 amended: only the dispensing-decrement path preserves
`[0, capacity]` (it clamps at 0 and never increases the quantity), and
`updatePillCount` rejects negative counts; the direct compartment
update and the device sync enforce no bounds at all, so the invariant
does not survive arbitrary operation sequences. -/
theorem inventory_bounds_on_checked_paths (c : Compartment) (q n : Int) (slot : Slot)
    (h0 : 0 ≤ c.currentQuantity) (hc : c.currentQuantity ≤ c.capacity) (hq : 0 ≤ q) :
    0 ≤ (dispenseDecrement c q).currentQuantity ∧
    (dispenseDecrement c q).currentQuantity ≤ c.capacity ∧
    ∀ s', updatePillCount slot n = .ok s' → 0 ≤ s'.pillCount := by
  refine ⟨le_max_left 0 _, ?_, ?_⟩
  · have : max 0 (c.currentQuantity - q) ≤ c.capacity := by
      rcases max_cases 0 (c.currentQuantity - q) with ⟨he, _⟩ | ⟨he, _⟩ <;> rw [he] <;> omega
    simpa [dispenseDecrement] using this
  · intro s' h
    unfold updatePillCount at h
    split at h
    · cases h
    · cases h
      next hneg => simpa using le_of_not_lt hneg

/-- C1 witness for `inventory_bounds_on_checked_paths`. -/
theorem inventory_bounds_on_checked_paths_witness :
    0 ≤ (dispenseDecrement compTen 3).currentQuantity ∧
    (dispenseDecrement compTen 3).currentQuantity ≤ compTen.capacity ∧
    ∀ s', updatePillCount slotFive 7 = .ok s' → 0 ≤ s'.pillCount :=
  inventory_bounds_on_checked_paths compTen 3 7 slotFive (by decide) (by decide) (by decide)

/-! ## C2 — duplicate dispensed confirmation -/

/-- C2 counterexample: re-delivering a dispensed confirmation for an
event already in the dispensed state decrements the stock again on both
implementations — the part_008 status update takes another tablet from
the compartment, and the dispensingService handler takes another pill
from the slot — so the duplicate is not a no-op. -/
theorem duplicate_dispensed_confirmation_not_noop :
    (updateDispensingLogStatus logDispensedCE dispenseReq (some compTen)).2 =
      some { compTen with currentQuantity := 9 } ∧
    (updateDispensingLogStatus logDispensedCE dispenseReq (some compTen)).2 ≠
      some compTen ∧
    (handleDispensedConfirmation recCompleted slotFive true none 200).slot.pillCount = 4 := by
  decide

/-- C2 amended: the handlers perform no check of the event's current
status, so a duplicate confirmation is idempotent only on the status
field; it decrements the pill count once more (clamped at 0).  No error
is raised. -/
theorem duplicate_confirmation_decrements_again (rec : DispensingRecord) (slot : Slot)
    (now : Nat) (h : rec.status = .completed) :
    (handleDispensedConfirmation rec slot true none now).record.status = .completed ∧
    (handleDispensedConfirmation rec slot true none now).slot.pillCount =
      max 0 (slot.pillCount - 1) := by
  simp [handleDispensedConfirmation]

/-- C2 witness for `duplicate_confirmation_decrements_again`. -/
theorem duplicate_confirmation_decrements_again_witness :
    (handleDispensedConfirmation recCompleted slotFive true none 200).record.status =
      .completed ∧
    (handleDispensedConfirmation recCompleted slotFive true none 200).slot.pillCount =
      max 0 (slotFive.pillCount - 1) :=
  duplicate_confirmation_decrements_again recCompleted slotFive 200 (by decide)

/-! ## C3 — consume on the dispensed transition -/

/-- C3 counterexample: with one tablet in the compartment and a
two-tablet dose, the `dispensed` status update succeeds anyway — the
event becomes `dispensed` and the compartment is clamped to 0 — instead
of failing with an insufficient-stock error. -/
theorem insufficient_stock_clamps_silently :
    (updateDispensingLogStatus logTwoTablets dispenseReq (some compOne)).1.status =
      .dispensed ∧
    (updateDispensingLogStatus logTwoTablets dispenseReq (some compOne)).2 =
      some { compOne with currentQuantity := 0 } := by
  decide

/-- C3 amended: the `dispensed` transition never fails for stock
reasons; the compartment quantity becomes
`max 0 (current - tabletsDispensed)`, i.e. a full decrement when the
stock suffices and a silent clamp to 0 (a partial decrement) when it
does not, and the event becomes `dispensed` either way. -/
theorem dispensed_transition_clamps (log : DLog) (req : LogUpdateRequest)
    (c : Compartment) (hst : req.status = some .dispensed) (hdev : log.device ≠ none)
    (hcid : jsTruthyNat log.compartmentId = true) :
    (updateDispensingLogStatus log req (some c)).1.status = .dispensed ∧
    ∀ c', (updateDispensingLogStatus log req (some c)).2 = some c' →
      (tabletsDispensedOf (updateDispensingLogStatus log req (some c)).1.quantity ≤
          c.currentQuantity →
        c'.currentQuantity = c.currentQuantity -
          tabletsDispensedOf (updateDispensingLogStatus log req (some c)).1.quantity) ∧
      (c.currentQuantity <
          tabletsDispensedOf (updateDispensingLogStatus log req (some c)).1.quantity →
        c'.currentQuantity = 0) := by
  constructor
  · simp [updateDispensingLogStatus, hst]
  · intro c' hc'
    have hguard : req.status = some LogStatus.dispensed ∧ log.device ≠ none ∧
        jsTruthyNat log.compartmentId = true := ⟨hst, hdev, hcid⟩
    simp only [updateDispensingLogStatus, if_pos hguard, Option.some.injEq] at hc' ⊢
    subst hc'
    simp only [dispenseDecrement]
    refine ⟨fun hle => ?_, fun hlt => ?_⟩ <;> omega

/-- C3 witness for `dispensed_transition_clamps`. -/
theorem dispensed_transition_clamps_witness :
    (updateDispensingLogStatus logTwoTablets dispenseReq (some compOne)).1.status =
      .dispensed ∧
    ∀ c', (updateDispensingLogStatus logTwoTablets dispenseReq (some compOne)).2 =
        some c' →
      (tabletsDispensedOf
          (updateDispensingLogStatus logTwoTablets dispenseReq (some compOne)).1.quantity ≤
          compOne.currentQuantity →
        c'.currentQuantity = compOne.currentQuantity -
          tabletsDispensedOf
            (updateDispensingLogStatus logTwoTablets dispenseReq (some compOne)).1.quantity) ∧
      (compOne.currentQuantity <
          tabletsDispensedOf
            (updateDispensingLogStatus logTwoTablets dispenseReq (some compOne)).1.quantity →
        c'.currentQuantity = 0) :=
  dispensed_transition_clamps logTwoTablets dispenseReq compOne (by decide) (by decide)
    (by decide)

/-! ## C4 — failed device confirmation -/

/-- C4 counterexample: on a `success:false` confirmation the event's
status becomes `FAILED` — it does not remain `scheduled`. -/
theorem failed_confirmation_not_scheduled :
    (handleDispensedConfirmation recScheduled slotFive false (some "jam") 300).record.status =
      .failed ∧
    (handleDispensedConfirmation recScheduled slotFive false (some "jam") 300).record.status ≠
      .scheduled := by
  decide

/-- C4 amended: on a `success:false` confirmation the event's status
becomes `FAILED` (with the device's error message recorded), a
dispensing-error notification is created, and the compartment inventory
is unchanged. -/
theorem failed_confirmation_behaviour (rec : DispensingRecord) (slot : Slot)
    (em : Option String) (now : Nat) :
    (handleDispensedConfirmation rec slot false em now).record.status = .failed ∧
    (handleDispensedConfirmation rec slot false em now).slot = slot ∧
    (handleDispensedConfirmation rec slot false em now).notifications =
      [.dispensingError] := by
  simp [handleDispensedConfirmation]

/-! ## C5 — pause/delete cancels future events -/

/-- C5: `updateScheduleStatus` assigns the requested flag to
`schedule.active` before its two guards read that same field, so both
guards are statically false and the log store is never touched: pausing
a schedule leaves every future event of the schedule in the `scheduled`
state, contradicting the code's own comment and the spec. -/
theorem pause_never_cancels_future_events (s : Schedule) (logs : List DLog)
    (active : Bool) (reason : Option String) (now : Nat) :
    (updateScheduleStatus s logs active reason now).2 = logs ∧
    (updateScheduleStatus s logs active reason now).1 = { s with active := active } := by
  unfold updateScheduleStatus
  cases active <;> simp

/-! ## C8 — escalation level monotonicity -/

/-- An active missed-dose alert already escalated to level 3. -/
def alertLevelThree : Alert :=
  { id := 1, alertType := .missedDose, severity := .high, patient := 1,
    dispenser := none, medication := some 2, status := .active,
    escalationLevel := 3, escalationHistoryLevels := [1, 2, 3], acknowledgedAt := none }

/-- C8 counterexample: escalating an active level-3 alert with an
explicit requested level of 1 lowers its escalation level to 1. -/
theorem escalate_can_lower_level :
    escalateAlert alertLevelThree (some 1) =
      .ok { alertLevelThree with
            escalationLevel := 1, escalationHistoryLevels := [1, 2, 3, 1] } ∧
    1 < alertLevelThree.escalationLevel :=
  ⟨rfl, by decide⟩

/-- C8 amended: escalation is rejected for non-active alerts and the
status-update endpoint never changes the level (acknowledge/resolve
freeze it); an escalation without an explicit level increments the
level by one, but an explicit nonzero requested level is applied
verbatim and therefore may lower the level of an active alert. -/
theorem escalation_behaviour (a : Alert) (reqStatus : Option AlertStatus) (now n : Nat) :
    (a.status ≠ .active →
      ∀ lvl, escalateAlert a lvl = .error "Cannot escalate non-active alert") ∧
    (a.status = .active →
      ∃ a', escalateAlert a none = .ok a' ∧
        a'.escalationLevel = a.escalationLevel + 1) ∧
    (a.status = .active → n ≠ 0 →
      ∃ a', escalateAlert a (some n) = .ok a' ∧ a'.escalationLevel = n) ∧
    (updateAlertStatus a reqStatus now).escalationLevel = a.escalationLevel := by
  refine ⟨fun hna lvl => ?_, fun ha => ?_, fun ha hn => ?_, ?_⟩
  · simp [escalateAlert, hna]
  · have e : escalateAlert a none = .ok
        { a with
          escalationLevel := a.escalationLevel + 1
          escalationHistoryLevels := a.escalationHistoryLevels ++ [a.escalationLevel + 1] } := by
      simp [escalateAlert, ha, jsOrNat]
    exact ⟨_, e, rfl⟩
  · have e : escalateAlert a (some n) = .ok
        { a with
          escalationLevel := n
          escalationHistoryLevels := a.escalationHistoryLevels ++ [n] } := by
      simp [escalateAlert, ha, jsOrNat, hn]
    exact ⟨_, e, rfl⟩
  · unfold updateAlertStatus
    cases reqStatus with
    | none => rfl
    | some s => dsimp only; split <;> rfl

/-- C8 witness for `escalation_behaviour`. -/
theorem escalation_behaviour_witness :
    ∃ a', escalateAlert alertLevelThree none = .ok a' ∧
      a'.escalationLevel = alertLevelThree.escalationLevel + 1 :=
  (escalation_behaviour alertLevelThree (some .acknowledged) 5 7).2.1 (by decide)

/-! ## C9 — idempotent alert raise -/

/-- The raise request used by the C9 counterexample. -/
def specMissed : AlertSpec :=
  { alertType := .missedDose, severity := none, patient := 1, dispenser := none,
    medication := some 2 }

/-- C9 counterexample: raising a fingerprint while an active alert with
the same fingerprint exists creates a second record — afterwards two
active alerts carry the fingerprint. -/
theorem raise_duplicates_active_fingerprint :
    createAlert [newAlertRecord specMissed 1] [1] specMissed 2 =
      .ok [newAlertRecord specMissed 1, newAlertRecord specMissed 2] ∧
    countActiveFingerprint
      [newAlertRecord specMissed 1, newAlertRecord specMissed 2] specMissed = 2 :=
  ⟨rfl, rfl⟩

/-- C9 amended: `createAlert` performs no fingerprint lookup: every
successful raise appends a fresh active record, so the count of active
alerts with the raised fingerprint always grows by one, regardless of
whether one already exists. -/
theorem createAlert_always_appends (db : List Alert) (users : List Nat)
    (spec : AlertSpec) (newId : Nat) (h : spec.patient ∈ users) :
    createAlert db users spec newId = .ok (db ++ [newAlertRecord spec newId]) ∧
    countActiveFingerprint (db ++ [newAlertRecord spec newId]) spec =
      countActiveFingerprint db spec + 1 := by
  refine ⟨by simp [createAlert, h], ?_⟩
  unfold countActiveFingerprint
  rw [List.filter_append]
  simp [sameFingerprint, newAlertRecord]

/-- C9 witness for `createAlert_always_appends`. -/
theorem createAlert_always_appends_witness :
    createAlert [newAlertRecord specMissed 1] [1] specMissed 2 =
      .ok ([newAlertRecord specMissed 1] ++ [newAlertRecord specMissed 2]) ∧
    countActiveFingerprint
        ([newAlertRecord specMissed 1] ++ [newAlertRecord specMissed 2]) specMissed =
      countActiveFingerprint [newAlertRecord specMissed 1] specMissed + 1 :=
  createAlert_always_appends [newAlertRecord specMissed 1] [1] specMissed 2 (by decide)

/-! ## C10 — recipient tiers above level 4 -/

/-- C10: past level 4 the recipient resolver falls into its `default`
branch and returns only patient and caregivers — a strict subset of the
level-4 tier set, so escalating past level 4 shrinks the notified
group. -/
theorem recipients_collapse_above_level_four (level : Nat) (h : 4 < level) :
    getRecipientsForEscalationLevel level = [.patient, .caregivers] ∧
    (∀ g ∈ getRecipientsForEscalationLevel level,
      g ∈ getRecipientsForEscalationLevel 4) ∧
    ∃ g ∈ getRecipientsForEscalationLevel 4,
      g ∉ getRecipientsForEscalationLevel level := by
  obtain ⟨n, rfl⟩ : ∃ n, level = n + 5 := ⟨level - 5, by omega⟩
  have e : getRecipientsForEscalationLevel (n + 5) = [.patient, .caregivers] := rfl
  rw [e]
  exact ⟨rfl, by decide, by decide⟩

/-- C10 witness for `recipients_collapse_above_level_four`. -/
theorem recipients_collapse_above_level_four_witness :
    getRecipientsForEscalationLevel 5 = [.patient, .caregivers] ∧
    (∀ g ∈ getRecipientsForEscalationLevel 5,
      g ∈ getRecipientsForEscalationLevel 4) ∧
    ∃ g ∈ getRecipientsForEscalationLevel 4,
      g ∉ getRecipientsForEscalationLevel 5 :=
  recipients_collapse_above_level_four 5 (by decide)

/-! ## Expansion lemmas shared by the schedule claims -/

theorem mem_dayLogs {s : Schedule} {now d : Nat} {log : DLog} :
    log ∈ dayLogs s now d ↔
      d % 7 ∈ s.daysOfWeek ∧
      ∃ t ∈ s.scheduleTimes, now < d * 1440 + t ∧
        log = mkScheduledLog s (d * 1440 + t) := by
  unfold dayLogs
  split
  · next hw =>
    simp only [List.mem_filterMap, hw, true_and]
    constructor
    · rintro ⟨t, ht, hsome⟩
      split at hsome
      · next hft => exact ⟨t, ht, hft, (Option.some.inj hsome).symm⟩
      · cases hsome
    · rintro ⟨t, ht, hft, rfl⟩
      exact ⟨t, ht, by rw [if_pos hft]⟩
  · next hw => simp [hw]

theorem mem_expansionDays {s : Schedule} {now d : Nat} :
    d ∈ expansionDays s now ↔ now / 1440 ≤ d ∧ d ≤ horizonEnd s now / 1440 := by
  unfold expansionDays
  rw [List.mem_range'_1]
  omega

theorem mem_generateDispensingLogs {s : Schedule} {now : Nat} {log : DLog} :
    log ∈ generateDispensingLogs s now ↔
      s.active = true ∧ s.dispenser ≠ none ∧
      ∃ d, now / 1440 ≤ d ∧ d ≤ horizonEnd s now / 1440 ∧ d % 7 ∈ s.daysOfWeek ∧
        ∃ t ∈ s.scheduleTimes, now < d * 1440 + t ∧
          log = mkScheduledLog s (d * 1440 + t) := by
  unfold generateDispensingLogs
  split
  · next hcond =>
    simp only [List.not_mem_nil, false_iff]
    rintro ⟨ha, hd, -⟩
    rcases hcond with h | h
    · exact h ha
    · exact hd h
  · next hcond =>
    push_neg at hcond
    simp only [List.mem_flatMap, mem_expansionDays, mem_dayLogs]
    constructor
    · rintro ⟨d, ⟨h1, h2⟩, hw, t, ht, hft, rfl⟩
      exact ⟨hcond.1, hcond.2, d, h1, h2, hw, t, ht, hft, rfl⟩
    · rintro ⟨-, -, d, h1, h2, hw, t, ht, hft, rfl⟩
      exact ⟨d, ⟨h1, h2⟩, hw, t, ht, hft, rfl⟩

/-- Keys emitted for distinct days live in disjoint minute ranges, so a
day-indexed `flatMap` inherits pairwise-distinct keys. -/
theorem pairwise_key_flatMap {β : Type} (key : β → Nat) (l : List Nat)
    (f : Nat → List β) (hl : l.Pairwise (· < ·))
    (hin : ∀ d ∈ l, ∀ x ∈ f d, d * 1440 ≤ key x ∧ key x < (d + 1) * 1440)
    (hf : ∀ d ∈ l, (f d).Pairwise fun a b => key a ≠ key b) :
    (l.flatMap f).Pairwise fun a b => key a ≠ key b := by
  induction l with
  | nil => simp
  | cons d ds ih =>
    rw [List.flatMap_cons, List.pairwise_append]
    obtain ⟨hrel, hpds⟩ := List.pairwise_cons.mp hl
    refine ⟨hf d (List.mem_cons_self ..),
      ih hpds (fun d' hd' => hin d' (List.mem_cons_of_mem _ hd'))
        (fun d' hd' => hf d' (List.mem_cons_of_mem _ hd')), ?_⟩
    intro x hx y hy
    obtain ⟨d', hd', hy'⟩ := List.mem_flatMap.mp hy
    have h1 := (hin d (List.mem_cons_self ..) x hx).2
    have h2 := (hin d' (List.mem_cons_of_mem _ hd') y hy').1
    have hdd : d < d' := hrel d' hd'
    omega

theorem expansionDays_pairwise (s : Schedule) (now : Nat) :
    (expansionDays s now).Pairwise (· < ·) :=
  List.pairwise_lt_range' ..

theorem dayLogs_pairwise (s : Schedule) (now d : Nat)
    (htimes : s.scheduleTimes.Nodup) :
    (dayLogs s now d).Pairwise fun a b => a.scheduledTime ≠ b.scheduledTime := by
  have hnd : ((dayLogs s now d).map fun l : DLog => l.scheduledTime).Nodup := by
    unfold dayLogs
    split
    · rw [List.map_filterMap]
      refine htimes.filterMap ?_
      intro a b c hca hcb
      by_cases ha2 : d * 1440 + a > now
      · by_cases hb2 : d * 1440 + b > now
        · rw [if_pos ha2] at hca
          rw [if_pos hb2] at hcb
          simp only [Option.map_some', Option.mem_def, Option.some.injEq,
            mkScheduledLog] at hca hcb
          omega
        · rw [if_neg hb2] at hcb
          cases hcb
      · rw [if_neg ha2] at hca
        cases hca
    · simp
  exact List.pairwise_map.mp hnd

theorem generate_scheduledTime_pairwise (s : Schedule) (now : Nat)
    (htimes : s.scheduleTimes.Nodup) (hbound : ∀ t ∈ s.scheduleTimes, t < 1440) :
    (generateDispensingLogs s now).Pairwise
      fun a b => a.scheduledTime ≠ b.scheduledTime := by
  unfold generateDispensingLogs
  split
  · simp
  · refine pairwise_key_flatMap (fun l : DLog => l.scheduledTime) _ _
      (expansionDays_pairwise s now) ?_ (fun d _ => dayLogs_pairwise s now d htimes)
    intro d _ x hx
    rw [mem_dayLogs] at hx
    obtain ⟨-, t, ht, -, rfl⟩ := hx
    have := hbound t ht
    simp only [mkScheduledLog]
    omega

/-! ## C7 — expansion window and day filter -/

/-- Schedule used by the expansion counterexamples: one daily time
02:00, active every weekday, start date on day 10, horizon end on
day 1. -/
def schedCE : Schedule :=
  { id := 1, patient := 1, medication := 1, dispenser := some 1,
    compartmentId := some 1, scheduleTimes := [120],
    daysOfWeek := [0, 1, 2, 3, 4, 5, 6], startDate := 14400,
    endDate := some 1440, dosage := 1, active := true }

/-- C7 counterexample: the expansion emits an event whose instant lies
before the schedule's `startDate` — the generator never consults
`startDate`, so events are not confined to `[startDate, endDate]`. -/
theorem expansion_ignores_startDate :
    ∃ log ∈ generateDispensingLogs schedCE 100,
      log.scheduledTime < schedCE.startDate := by
  decide

/-- C7 amended: for an active schedule with a dispenser, the expansion
produces exactly the events at `d * 1440 + t` for each day `d` from
today through the horizon end (`endDate`, or `now + 30` days when
absent) whose weekday is in the day set and each configured time `t`
whose instant is strictly in the future; the schedule's `startDate`
plays no role, and every generated event is strictly in the future. -/
theorem expansion_characterisation (s : Schedule) (now : Nat) (log : DLog)
    (ha : s.active = true) (hd : s.dispenser ≠ none) :
    (log ∈ generateDispensingLogs s now ↔
      ∃ d, now / 1440 ≤ d ∧ d ≤ horizonEnd s now / 1440 ∧ d % 7 ∈ s.daysOfWeek ∧
        ∃ t ∈ s.scheduleTimes, now < d * 1440 + t ∧
          log = mkScheduledLog s (d * 1440 + t)) ∧
    (log ∈ generateDispensingLogs s now → now < log.scheduledTime) := by
  constructor
  · rw [mem_generateDispensingLogs]
    simp [ha, hd]
  · intro hm
    rw [mem_generateDispensingLogs] at hm
    obtain ⟨-, -, d, -, -, -, t, -, hft, rfl⟩ := hm
    simpa [mkScheduledLog] using hft

/-- C7 witness for `expansion_characterisation`. -/
theorem expansion_characterisation_witness :
    ((mkScheduledLog schedCE 120) ∈ generateDispensingLogs schedCE 100 ↔
      ∃ d, 100 / 1440 ≤ d ∧ d ≤ horizonEnd schedCE 100 / 1440 ∧
        d % 7 ∈ schedCE.daysOfWeek ∧
        ∃ t ∈ schedCE.scheduleTimes, 100 < d * 1440 + t ∧
          mkScheduledLog schedCE 120 = mkScheduledLog schedCE (d * 1440 + t)) ∧
    ((mkScheduledLog schedCE 120) ∈ generateDispensingLogs schedCE 100 →
      100 < (mkScheduledLog schedCE 120).scheduledTime) :=
  expansion_characterisation schedCE 100 (mkScheduledLog schedCE 120) rfl (by decide)

/-! ## C6 — uniqueness of (schedule, scheduledTime) -/

/-- The skip request used by the C6 counterexample sequence. -/
def skipReq : LogUpdateRequest :=
  { status := some .skipped, takenTime := none, dispensedTime := none,
    notes := none, verificationSuccessful := none, actualTabletDispensed := none }

/-- The log store after expanding `schedCE` and then skipping the
future event at instant 1560 through the status-update endpoint. -/
def dbAfterSkip : List DLog :=
  (generateDispensingLogs schedCE 100).map fun l =>
    if l.scheduledTime = 1560 then (updateDispensingLogStatus l skipReq none).1 else l

/-- C6 counterexample: after a future event leaves the `scheduled`
state, a timing-change regeneration creates a second event with the
same (schedule, scheduledTime) pair — the expansion skips nothing, and
the pre-delete only removes rows still in `scheduled` status. -/
theorem regeneration_duplicates_pair :
    ∃ l1 ∈ updateScheduleRegenerate schedCE true dbAfterSkip 100,
      ∃ l2 ∈ updateScheduleRegenerate schedCE true dbAfterSkip 100,
        l1 ≠ l2 ∧ l1.schedule = l2.schedule ∧
          l1.scheduledTime = l2.scheduledTime := by
  decide

/-- C6 amended: expansion does not skip already-existing pairs;
uniqueness of (schedule, scheduledTime) is maintained by a
timing-change regeneration only under the proviso that every stored
event of the schedule at a present-or-future instant is still in the
`scheduled` state (those rows are deleted before regenerating), the
configured times are distinct valid times of day, and the store was
duplicate-free to begin with. -/
theorem regeneration_unique_when_future_scheduled (s : Schedule) (db : List DLog)
    (now : Nat) (htimes : s.scheduleTimes.Nodup)
    (hbound : ∀ t ∈ s.scheduleTimes, t < 1440)
    (hdb : db.Pairwise fun a b =>
      ¬(a.schedule = b.schedule ∧ a.scheduledTime = b.scheduledTime))
    (hfut : ∀ l ∈ db, l.schedule = some s.id → now ≤ l.scheduledTime →
      l.status = .scheduled) :
    (updateScheduleRegenerate s true db now).Pairwise
      fun a b => ¬(a.schedule = b.schedule ∧ a.scheduledTime = b.scheduledTime) := by
  unfold updateScheduleRegenerate
  split
  · rw [List.pairwise_append]
    refine ⟨hdb.sublist ?_, ?_, ?_⟩
    · unfold deleteFutureScheduled
      exact List.filter_sublist _
    · exact (generate_scheduledTime_pairwise s now htimes hbound).imp
        fun h hcon => h hcon.2
    · intro a hafilter b hbgen
      rintro ⟨hsch, htime⟩
      rw [mem_generateDispensingLogs] at hbgen
      obtain ⟨-, -, d, -, -, -, t, -, hft, rfl⟩ := hbgen
      unfold deleteFutureScheduled at hafilter
      rw [List.mem_filter] at hafilter
      obtain ⟨hamem, hbool⟩ := hafilter
      have hsch' : a.schedule = some s.id := by
        simpa [mkScheduledLog] using hsch
      have htime' : a.scheduledTime = d * 1440 + t := by
        simpa [mkScheduledLog] using htime
      have hstat := hfut a hamem hsch' (by omega)
      simp [matchesFutureScheduled, hsch', htime', hstat] at hbool
      omega
  · exact hdb

/-- C6 witness for `regeneration_unique_when_future_scheduled`. -/
theorem regeneration_unique_when_future_scheduled_witness :
    (updateScheduleRegenerate schedCE true (generateDispensingLogs schedCE 100)
        100).Pairwise
      fun a b => ¬(a.schedule = b.schedule ∧ a.scheduledTime = b.scheduledTime) :=
  regeneration_unique_when_future_scheduled schedCE
    (generateDispensingLogs schedCE 100) 100 (by decide) (by decide) (by decide)
    (by decide)

end Medibuddy
